import Mathlib

/-!
Verification of the declarative visual composition engine of the
micro-agent office-document generator.  The definitions below are a
shallow embedding of `src/tools/ppt_tools.py` and
`src/tools/office_tools.py`: machine reals (Python floats used for
inches/fractions) are modelled as `ℚ`, Python `dict` inputs as
structures with `Option` fields (a missing key is `none`, `.get(k, d)`
is `Option.getD`), and functions that can raise as `Option`- or
`PyOutcome`-valued functions.
-/

/-! ## Python-level helpers -/

/-- Python `int(q)` on a real value: truncation toward zero
(`int(2.7) = 2`, `int(-2.7) = -2`). -/
def pyInt (q : ℚ) : ℤ :=
  Int.tdiv q.num (q.den : ℤ)

/-- The hexadecimal digit characters produced by Python's `"%x"` /
`f"{n:02x}"` formatting: lowercase `0-9a-f`. -/
def hexDigitChar (n : Nat) : Char :=
  if n < 10 then Char.ofNat (48 + n) else Char.ofNat (87 + n)

/-- Auxiliary digit accumulator for base-16 rendering (fuel-indexed). -/
def hexDigitsAux : Nat → Nat → List Char → List Char
  | 0, _, acc => acc
  | fuel + 1, n, acc =>
    if n < 16 then hexDigitChar n :: acc
    else hexDigitsAux fuel (n / 16) (hexDigitChar (n % 16) :: acc)

/-- Lowercase base-16 rendering of a natural number, `hexDigits 0 = "0"`
like Python's `format(0, "x")`. -/
def hexDigits (n : Nat) : List Char :=
  hexDigitsAux (n + 1) n []

/-- Left-pad a digit list with `'0'` up to width `w`. -/
def padZeros (w : Nat) (l : List Char) : List Char :=
  List.replicate (w - l.length) '0' ++ l

/-- Python `f"{z:02x}"`: lowercase hex, zero-padded to total width 2, the
sign (for a negative argument) counting toward the width and standing
before the padding. -/
def pyFmt02x (z : ℤ) : List Char :=
  if z < 0 then '-' :: padZeros 1 (hexDigits z.natAbs)
  else padZeros 2 (hexDigits z.natAbs)

/-- The value of one hexadecimal digit character, as accepted by Python's
`int(s, 16)` (both cases). -/
def hexVal? (c : Char) : Option Nat :=
  if '0' ≤ c ∧ c ≤ '9' then some (c.toNat - 48)
  else if 'a' ≤ c ∧ c ≤ 'f' then some (c.toNat - 87)
  else if 'A' ≤ c ∧ c ≤ 'F' then some (c.toNat - 55)
  else none

/-- Python `int(s, 16)` on a plain digit string: `none` models the
`ValueError` raised on an empty slice or a non-hex character. -/
def pyIntBase16 (l : List Char) : Option Nat :=
  match l with
  | [] => none
  | _ =>
    l.foldl
      (fun acc c =>
        match acc, hexVal? c with
        | some a, some v => some (16 * a + v)
        | _, _ => none)
      (some 0)

/-- Python `s.lstrip('#')`: drop every leading `'#'`. -/
def lstripHash : List Char → List Char
  | '#' :: rest => lstripHash rest
  | l => l

/-- Python slice `l[a:b]` (for `0 ≤ a ≤ b`). -/
def pySlice (l : List Char) (a b : Nat) : List Char :=
  (l.drop a).take (b - a)

/-! ## Color model (`ppt_tools.py` lines 105–120)

`_darken` parses `hex_color` after `lstrip('#')`, multiplies each
channel by `factor` under Python-`int` truncation and re-renders with
`f"{r:02x}{g:02x}{b:02x}"`; `_lighten` moves each channel toward 255 by
`factor` the same way.  Neither clamps nor rounds. -/

/-- `_darken(hex_color, factor)` of `ppt_tools.py`: `none` models the
`ValueError` on a malformed color string. -/
def _darken (hex_color : String) (factor : ℚ) : Option String :=
  let c := lstripHash hex_color.data
  match pyIntBase16 (pySlice c 0 2), pyIntBase16 (pySlice c 2 4),
      pyIntBase16 (pySlice c 4 6) with
  | some r, some g, some b =>
    some (String.mk ('#' ::
      (pyFmt02x (pyInt ((r : ℚ) * factor)) ++
       pyFmt02x (pyInt ((g : ℚ) * factor)) ++
       pyFmt02x (pyInt ((b : ℚ) * factor)))))
  | _, _, _ => none

/-- `_lighten(hex_color, factor)` of `ppt_tools.py`. -/
def _lighten (hex_color : String) (factor : ℚ) : Option String :=
  let c := lstripHash hex_color.data
  match pyIntBase16 (pySlice c 0 2), pyIntBase16 (pySlice c 2 4),
      pyIntBase16 (pySlice c 4 6) with
  | some r, some g, some b =>
    some (String.mk ('#' ::
      (pyFmt02x (pyInt ((r : ℚ) + (255 - (r : ℚ)) * factor)) ++
       pyFmt02x (pyInt ((g : ℚ) + (255 - (g : ℚ)) * factor)) ++
       pyFmt02x (pyInt ((b : ℚ) + (255 - (b : ℚ)) * factor)))))
  | _, _, _ => none

/-- Total wrapper used by slide builders, which only ever pass the
well-formed `#RRGGBB` theme colors (on which `_darken` never fails). -/
def darkenHex (c : String) (f : ℚ) : String :=
  (_darken c f).getD c

/-- Total wrapper for `_lighten`, as `darkenHex`. -/
def lightenHex (c : String) (f : ℚ) : String :=
  (_lighten c f).getD c

/-! ## Gradient fill (`ppt_tools.py` lines 132–168)

`_apply_gradient_fill` sets the two base stops of the target's gradient
to `(position 0, color_start)` and `(position 1, color_end)`, then, for
each extra stop `{pos: 0-100, color}`, appends (via `etree.SubElement`,
which places the new `a:gs` at the END of `a:gsLst`) a stop at DrawingML
position `int(pos * 1000)` out of 100000, with the color's leading `#`
stripped.  Below a stop's position is the fraction of the gradient run
(DrawingML thousandths-of-a-percent divided by 100000) and a stop's
color the bare 6-digit code, both for the base stops (stored through
`RGBColor`) and the appended ones (stored as `srgbClr/@val`). -/

structure GradientStop where
  pos : ℚ
  color : String
deriving DecidableEq

structure ExtraStop where
  pos : ℚ
  color : String
deriving DecidableEq

/-- The bare 6-digit code of a color string (leading `#`s stripped). -/
def hexCode (s : String) : String :=
  String.mk (lstripHash s.data)

/-- The stop list produced by `_apply_gradient_fill(target, color_start,
color_end, angle, extra_stops)`: the two base stops, then every extra
stop appended in input order. -/
def _apply_gradient_fill (color_start color_end : String)
    (extra_stops : List ExtraStop) : List GradientStop :=
  [⟨0, hexCode color_start⟩, ⟨1, hexCode color_end⟩] ++
    extra_stops.map (fun es => ⟨(pyInt (es.pos * 1000) : ℚ) / 100000, hexCode es.color⟩)

/-! ## Chart spec adapter -/

/-- One entry of a chart config's `series` list (a Python dict; a missing
key is `none`). -/
structure ChartSeriesCfg where
  name : Option String := none
  values : Option (List ℚ) := none
  x_values : Option (List ℚ) := none
  y_values : Option (List ℚ) := none
deriving DecidableEq

/-- A chart configuration dict, as consumed both by
`office_tools._generate_chart_image` and `ppt_tools._add_native_chart`. -/
structure ChartCfg where
  chart_type : Option String := none
  categories : List String := []
  series : List ChartSeriesCfg := []
  title : Option String := none
  show_legend : Option Bool := none
  show_data_labels : Option Bool := none
  colors : List String := []
  legend_position : Option String := none
deriving DecidableEq

/-- The data drawn by the `pie` branch of
`office_tools._generate_chart_image` (lines 154–166): wedge values from
`series_list[0]["values"]`, slice labels from `categories`. -/
structure PieImage where
  values : List ℚ
  labels : List String
deriving DecidableEq

/-- The `pie` branch of `_generate_chart_image`: nothing is drawn when
`series_list` is empty (`if series_list:`); otherwise only the first
series' values are plotted, with the categories as labels. -/
def pieChartPlot (cfg : ChartCfg) : Option PieImage :=
  match cfg.series with
  | [] => none
  | s0 :: _ => some ⟨s0.values.getD [], cfg.categories⟩

/-- The chart data handed to `slide.shapes.add_chart` by
`ppt_tools._add_native_chart` (lines 431–443): an `XyChartData` for
scatter, a `CategoryChartData` holding the categories and EVERY series
otherwise. -/
inductive NativeChartData where
  | xy (series : List (String × List (ℚ × ℚ)))
  | category (categories : List String) (series : List (String × List ℚ))
deriving DecidableEq

/-- Number of series carried by the embedded chart data. -/
def NativeChartData.seriesCount : NativeChartData → Nat
  | .xy l => l.length
  | .category _ l => l.length

/-- The chart-data construction of `_add_native_chart`: `chart_type`
defaults to `"column"` and is upper-cased; scatter zips `x_values` with
`values` (falling back to `y_values`); every other type — pie and
doughnut included — adds all series to a `CategoryChartData`. -/
def _add_native_chart_data (cfg : ChartCfg) : NativeChartData :=
  let chart_type_str := (cfg.chart_type.getD "column").toUpper
  if chart_type_str = "SCATTER" then
    .xy (cfg.series.map fun s =>
      (s.name.getD "Series", (s.x_values.getD []).zip (s.values.getD (s.y_values.getD []))))
  else
    .category cfg.categories (cfg.series.map fun s => (s.name.getD "Series", s.values.getD []))

/-! ## Stacked bars (`office_tools._generate_chart_image`, lines 206–217)

The `stacked_bar` branch starts `bottom = np.zeros(len(categories))`,
and for each series draws `ax.bar(x, vals, bottom=bottom)` with
`vals = np.array(s.get("values", [0]*len(categories))[:len(categories)])`
then performs `bottom += vals`.  `stackedBars` transcribes the loop,
recording each drawn bar group's `(bottom, vals)`.  The elementwise
numpy addition is `List.zipWith (· + ·)`, which agrees with numpy
whenever the lengths match (numpy raises otherwise). -/

structure StackedBarGroup where
  bottom : List ℚ
  vals : List ℚ
deriving DecidableEq

/-- The per-series loop of the `stacked_bar` branch. -/
def stackedBars (cats : Nat) (bottom : List ℚ) :
    List ChartSeriesCfg → List StackedBarGroup
  | [] => []
  | s :: rest =>
    let vals := (s.values.getD (List.replicate cats 0)).take cats
    ⟨bottom, vals⟩ :: stackedBars cats (bottom.zipWith (· + ·) vals) rest

/-- The `bottom` array left after the whole loop (the stacked totals). -/
def stackedFinal (cats : Nat) (bottom : List ℚ) :
    List ChartSeriesCfg → List ℚ
  | [] => bottom
  | s :: rest =>
    stackedFinal cats (bottom.zipWith (· + ·) ((s.values.getD (List.replicate cats 0)).take cats)) rest

/-- The bar groups drawn for a stacked-bar chart config. -/
def stackedBarPlot (cfg : ChartCfg) : List StackedBarGroup :=
  stackedBars cfg.categories.length
    (List.replicate cfg.categories.length 0) cfg.series

/-- The effective values of series `k` in the stacked-bar branch
(`s.get("values", [0]*len(categories))[:len(categories)]`). -/
def stackedValsOf (cfg : ChartCfg) (k : Nat) : List ℚ :=
  ((cfg.series.getD k {}).values.getD
      (List.replicate cfg.categories.length 0)).take cfg.categories.length

/-! ## Layout engine: card grid (`ppt_tools._build_cards_slide`, lines 866–896)

`_build_cards_slide` returns early (footer only) for `n = 0`; otherwise
it picks `(cols, rows)` by the `if/elif` ladder on `n`, truncating the
card list to 6 when `n > 6`, and lays the cards on a grid with
`total_w = 12.3`, `total_h = 5.0` (one row) or `4.8` (two rows),
`gap = 0.35`, `card_w = (total_w - (cols-1)*gap)/cols`,
`card_h = (total_h - (rows-1)*gap)/rows`, card `idx` at column
`idx % cols`, row `idx // cols`, origin `(0.5, 1.4)`. -/

structure Region where
  x : ℚ
  y : ℚ
  w : ℚ
  h : ℚ
deriving DecidableEq

/-- The `(cols_count, rows_count, number of cards kept)` chosen by the
`if/elif` ladder of `_build_cards_slide`. -/
def cardsGridSpec (n : Nat) : Nat × Nat × Nat :=
  if n ≤ 3 then (n, 1, n)
  else if n ≤ 4 then (2, 2, n)
  else if n ≤ 6 then (3, 2, n)
  else (3, 2, 6)

/-- The card rectangles `(cx, cy, card_w, card_h)` produced by the card
loop of `_build_cards_slide` (empty for `n = 0`, which returns early). -/
def cardRegions (n : Nat) : List Region :=
  if n = 0 then []
  else
    let cols := (cardsGridSpec n).1
    let rows := (cardsGridSpec n).2.1
    let count := (cardsGridSpec n).2.2
    let total_w : ℚ := 12.3
    let total_h : ℚ := if rows = 1 then 5.0 else 4.8
    let gap : ℚ := 0.35
    let card_w : ℚ := (total_w - ((cols : ℚ) - 1) * gap) / (cols : ℚ)
    let card_h : ℚ := (total_h - ((rows : ℚ) - 1) * gap) / (rows : ℚ)
    (List.range count).map fun idx =>
      ⟨0.5 + ((idx % cols : Nat) : ℚ) * (card_w + gap),
       1.4 + ((idx / cols : Nat) : ℚ) * (card_h + gap),
       card_w, card_h⟩

/-- Two rectangles do not overlap: they are separated along one axis. -/
def RegionDisjoint (a b : Region) : Prop :=
  a.x + a.w ≤ b.x ∨ b.x + b.w ≤ a.x ∨ a.y + a.h ≤ b.y ∨ b.y + b.h ≤ a.y

instance : DecidableRel RegionDisjoint := fun a b => by
  unfold RegionDisjoint
  exact inferInstance

/-! ## Layout engine: timeline (`ppt_tools._build_timeline_slide`, lines 1078–1153)

With `n` steps, the axis bar is drawn at `(0.8, 3.8)` with width `11.7`;
`step_width = 11.7 / n`; step `i` has its node circle of size `0.4` at
`left = cx - 0.2` so its center sits at
`cx = 0.8 + i*step_width + step_width/2`.  Content is placed above the
axis for even `i` (time label at y 1.5 when present, title at 1.9,
description at 2.4 when present) and below for odd `i` (title at 4.2,
time label 4.7, description 5.1). -/

def timelineLineY : ℚ := 3.8

def timelineAxisBar : Region := ⟨0.8, timelineLineY, 11.7, 0.04⟩

def timelineStepWidth (n : Nat) : ℚ := 11.7 / (n : ℚ)

def timelineCenterX (n i : Nat) : ℚ :=
  0.8 + (i : ℚ) * timelineStepWidth n + timelineStepWidth n / 2

/-- Left edge of step `i`'s node circle (`cx - node_size / 2`,
`node_size = 0.4`). -/
def timelineMarkerLeft (n i : Nat) : ℚ :=
  timelineCenterX n i - 0.4 / 2

structure TimelineStep where
  title : String := ""
  description : String := ""
  time_label : String := ""
deriving DecidableEq

/-- The text-box rectangles holding step `i`'s content (time label,
title, description), mirroring the `i % 2` branch of the step loop;
boxes guarded by `if time_label:` / `if desc:` appear only when the
field is non-empty. -/
def timelineContentBoxes (n i : Nat) (step : TimelineStep) : List Region :=
  let sw := timelineStepWidth n
  let cx := timelineCenterX n i
  let bx := cx - sw / 2 + 0.1
  let bw := sw - 0.2
  if i % 2 = 0 then
    (if step.time_label ≠ "" then [⟨bx, 1.5, bw, 0.4⟩] else []) ++
    [⟨bx, 1.9, bw, 0.5⟩] ++
    (if step.description ≠ "" then [⟨bx, 2.4, bw, 1.2⟩] else [])
  else
    [⟨bx, 4.2, bw, 0.5⟩] ++
    (if step.time_label ≠ "" then [⟨bx, 4.7, bw, 0.4⟩] else []) ++
    (if step.description ≠ "" then [⟨bx, 5.1, bw, 1.2⟩] else [])

/-! ## Preset themes (`ppt_tools.THEMES`, lines 27–76) -/

structure Theme where
  primary : String
  secondary : String
  accent : String
  light : String
  dark : String
  text_dark : String
  text_light : String
  bg : String
  gradient_start : String
  gradient_end : String
  card_bg : String
  card_border : String
deriving DecidableEq

def oceanTheme : Theme :=
  ⟨"#1A5276", "#2980B9", "#3498DB", "#D6EAF8", "#0E2F44", "#1C2833",
   "#FFFFFF", "#F0F8FF", "#1A5276", "#2980B9", "#FFFFFF", "#AED6F1"⟩

def forestTheme : Theme :=
  ⟨"#1E8449", "#27AE60", "#2ECC71", "#D5F5E3", "#0B3D1E", "#1C2833",
   "#FFFFFF", "#F0FFF0", "#1E8449", "#27AE60", "#FFFFFF", "#ABEBC6"⟩

def sunsetTheme : Theme :=
  ⟨"#C0392B", "#E74C3C", "#F39C12", "#FDEDEC", "#641E16", "#1C2833",
   "#FFFFFF", "#FFF5F0", "#C0392B", "#E74C3C", "#FFFFFF", "#F5B7B1"⟩

def royalTheme : Theme :=
  ⟨"#6C3483", "#8E44AD", "#BB8FCE", "#F4ECF7", "#3B1A5C", "#1C2833",
   "#FFFFFF", "#FAF0FF", "#6C3483", "#8E44AD", "#FFFFFF", "#D2B4DE"⟩

def midnightTheme : Theme :=
  ⟨"#2C3E50", "#34495E", "#1ABC9C", "#EBF5FB", "#1B2631", "#1C2833",
   "#FFFFFF", "#F8F9FA", "#2C3E50", "#34495E", "#FFFFFF", "#AEB6BF"⟩

def coralTheme : Theme :=
  ⟨"#E8725C", "#F09E8C", "#F7C59F", "#FFF0EB", "#8B3A2F", "#2D2D2D",
   "#FFFFFF", "#FFFAF8", "#E8725C", "#F09E8C", "#FFFFFF", "#F5C6BA"⟩

def techTheme : Theme :=
  ⟨"#0D47A1", "#1565C0", "#42A5F5", "#E3F2FD", "#0A1929", "#1A237E",
   "#FFFFFF", "#F5F9FF", "#0D47A1", "#1565C0", "#FFFFFF", "#90CAF9"⟩

def elegantTheme : Theme :=
  ⟨"#2C2C2C", "#555555", "#C9A96E", "#F5F0E8", "#1A1A1A", "#2C2C2C",
   "#FFFFFF", "#FAFAF5", "#2C2C2C", "#555555", "#FFFFFF", "#D5C4A1"⟩

def THEMES : List (String × Theme) :=
  [("ocean", oceanTheme), ("forest", forestTheme), ("sunset", sunsetTheme),
   ("royal", royalTheme), ("midnight", midnightTheme), ("coral", coralTheme),
   ("tech", techTheme), ("elegant", elegantTheme)]

/-- `_get_theme(name)`: `THEMES.get(name, THEMES["midnight"])`. -/
def _get_theme (name : String) : Theme :=
  (THEMES.lookup name).getD midnightTheme

/-- Per-key overrides supplied as `custom_colors`
(`theme = {**theme, **custom_colors}` in `generate_pptx_presentation`). -/
structure CustomColors where
  primary : Option String := none
  secondary : Option String := none
  accent : Option String := none
  light : Option String := none
  dark : Option String := none
  text_dark : Option String := none
  text_light : Option String := none
  bg : Option String := none
  gradient_start : Option String := none
  gradient_end : Option String := none
  card_bg : Option String := none
  card_border : Option String := none
deriving DecidableEq

/-- The shallow dict merge `{**theme, **custom_colors}`. -/
def mergeTheme (th : Theme) (cc : CustomColors) : Theme :=
  ⟨cc.primary.getD th.primary, cc.secondary.getD th.secondary,
   cc.accent.getD th.accent, cc.light.getD th.light, cc.dark.getD th.dark,
   cc.text_dark.getD th.text_dark, cc.text_light.getD th.text_light,
   cc.bg.getD th.bg, cc.gradient_start.getD th.gradient_start,
   cc.gradient_end.getD th.gradient_end, cc.card_bg.getD th.card_bg,
   cc.card_border.getD th.card_border⟩

/-! ## Text configs and slide elements

A text config is the dict handed to `_add_text_box` /
`_add_text_to_frame`.  The run/paragraph rendering inside the frame
(`_add_text_to_frame`) styles text but emits no further shapes, so a
text box is modelled as its rectangle plus the config dict; fields not
read by any claim (per-run styling) are carried verbatim. -/

structure TextCfg where
  text : String := ""
  bullets : List String := []
  font_size : Option ℚ := none
  bold : Bool := false
  italic : Bool := false
  color : Option String := none
  align : String := "LEFT"
  vertical_anchor : String := "TOP"
  line_spacing : Option ℚ := none
  font_name : Option String := none
  margin_left : Option ℚ := none
  margin_right : Option ℚ := none
  margin_top : Option ℚ := none
  margin_bottom : Option ℚ := none
deriving DecidableEq

/-- A value that in Python may be either a plain string or a text-config
dict (`content if isinstance(content, dict) else {"text": str(content)}`). -/
inductive ContentVal where
  | str (s : String)
  | cfg (c : TextCfg)
deriving DecidableEq

/-- The dict form of a content value. -/
def ContentVal.toCfg : ContentVal → TextCfg
  | .str s => {text := s}
  | .cfg c => c

/-- Python truthiness of a content value: the empty string is falsy; a
config dict built from user content is treated as truthy (slide specs
carry non-empty dicts there). -/
def ContentVal.isTruthy : ContentVal → Bool
  | .str s => s ≠ ""
  | .cfg _ => true

/-- `cfg.setdefault("font_size", sz); cfg.setdefault("color", col)` as
applied by the body-content builders. -/
def setdefaults (c : TextCfg) (sz : ℚ) (col : String) : TextCfg :=
  {c with font_size := some (c.font_size.getD sz), color := some (c.color.getD col)}

/-- `setdefaults` plus `cfg.setdefault("line_spacing", sp)`. -/
def setdefaultsSp (c : TextCfg) (sz : ℚ) (col : String) (sp : ℚ) : TextCfg :=
  {setdefaults c sz col with
    line_spacing := some (c.line_spacing.getD sp)}

/-- One entry of `slide_data["elements"]`, dispatched by `_add_element`
(`ppt_tools.py` 1377–1427).  No claim depends on the sub-dispatcher's
output, so the element dict is carried opaquely as a tag plus its
key/value pairs. -/
structure ElementCfg where
  etype : String := "text"
  payload : List (String × String) := []
deriving DecidableEq

/-- A styled table as placed by `_add_styled_table` (`ppt_tools.py`
491–574): its rectangle, dimensions, and the stringified cell grid.
Per-cell fills/fonts are styling on these cells and are not modelled
separately. -/
structure TableShape where
  left : ℚ
  top : ℚ
  width : ℚ
  height : ℚ
  rows : Nat
  cols : Nat
  cells : List (List String)
deriving DecidableEq

/-- The table config dict of a table block. -/
structure TableCfg where
  left : Option ℚ := none
  top : Option ℚ := none
  width : Option ℚ := none
  height : Option ℚ := none
  data : List (List String) := []
  header_bg : Option String := none
  header_fg : Option String := none
  stripe_colors : Option (List String) := none
  font_size : Option ℚ := none
  header_font_size : Option ℚ := none
deriving DecidableEq

/-- `_add_styled_table`: `None` for an empty `data` list and for an empty
first row (`cols == 0`); otherwise one table shape at the configured
rectangle (defaults `left 1`, `top 2`, `width 11`, `height rows*0.5`). -/
def _add_styled_table (cfg : TableCfg) : Option TableShape :=
  if cfg.data = [] then none
  else
    let rows := cfg.data.length
    let cols := (cfg.data.headD []).length
    if rows = 0 ∨ cols = 0 then none
    else
      some ⟨cfg.left.getD 1, cfg.top.getD 2, cfg.width.getD 11,
            cfg.height.getD ((rows : ℚ) * 0.5), rows, cols, cfg.data⟩

/-- One drawing call against the document writer, as emitted by the
slide builders. -/
inductive SlideElem where
  | bgSolid (color : String)
  | bgGradient (c1 c2 : String) (angle : ℤ)
  | roundedRect (x y w h : ℚ) (fill : String) (border : Option String)
      (borderWidth : ℚ) (shadow : Bool)
  | circle (x y size : ℚ) (fill : String) (border : Option String) (borderWidth : ℚ)
  | bar (x y w h : ℚ) (color : String)
  | textBox (x y w h : ℚ) (cfg : TextCfg)
  | picture (path : String) (x y w h : ℚ)
  | nativeChart (x y w h : ℚ) (data : NativeChartData)
  | tableShape (t : TableShape)
  | element (e : ElementCfg)
deriving DecidableEq

/-- A built slide: the sequence of drawing calls made while it was the
current slide. -/
abbrev Slide := List SlideElem

/-! ## Slide data (`slides_content` entries)

One entry of `slides_content`: a dict whose keys the various builders
probe with `.get`.  A field read with differing defaults by different
builders is an `Option` (the builder applies its own `getD`); a field
always read with default `""` is a plain `String`. -/

structure CardCfg where
  icon : String := ""
  title : String := ""
  content : Option ContentVal := none
deriving DecidableEq

structure ColumnCfg where
  icon : String := ""
  title : String := ""
  content : Option ContentVal := none
deriving DecidableEq

structure StatCfg where
  icon : String := ""
  value : String := "0"
  label : String := ""
  description : String := ""
deriving DecidableEq

structure SlideData where
  slide_type : Option String := none
  title : Option String := none
  subtitle : String := ""
  author : String := ""
  date : String := ""
  contact : String := ""
  section_number : String := ""
  content : Option ContentVal := none
  elements : List ElementCfg := []
  left_title : Option String := none
  right_title : Option String := none
  left_column : Option ContentVal := none
  right_column : Option ContentVal := none
  columns : List ColumnCfg := []
  cards : List CardCfg := []
  chart : ChartCfg := {}
  description : Option ContentVal := none
  stats : List StatCfg := []
  steps : List TimelineStep := []
  table : TableCfg := {}
  image_path : String := ""
  caption : String := ""
  left_items : List String := []
  right_items : List String := []
  left_color : Option String := none
  right_color : Option String := none
  quote : Option String := none
  text : Option String := none
deriving DecidableEq

/-! ## Slide builders (`ppt_tools.py` 581–1445)

Each `_build_*_slide` function calls `prs.slides.add_slide` exactly once
and then draws onto that slide; a builder is modelled as the element
list of the one slide it appends.  `k` is `len(prs.slides)` right after
the `add_slide` call — the slide's 1-based position — which
`_add_slide_footer` renders as the page number. -/

/-- `_add_slide_footer(slide, prs, theme, font)`: bottom accent bar plus
the slide number `len(prs.slides)`. -/
def _add_slide_footer (k : Nat) (th : Theme) : List SlideElem :=
  [.bar 0 7.2 13.333 0.04 th.accent,
   .textBox 12.2 7.0 0.8 0.3
     {text := toString k, font_size := some 10, color := some th.secondary,
      align := "RIGHT", vertical_anchor := "MIDDLE"}]

/-- The shared slide furniture of the content-style builders: solid
background, primary title bar, title text, accent underline. -/
def titleBarFurniture (title : String) (th : Theme) : List SlideElem :=
  [.bgSolid th.bg,
   .roundedRect 0 0 13.333 1.1 th.primary none 0 false,
   .textBox 0.8 0.15 11 0.8
     {text := title, font_size := some 26, bold := true,
      color := some th.text_light, align := "LEFT", vertical_anchor := "MIDDLE"},
   .bar 0.8 1.05 3 0.04 th.accent]

/-- Python `"  |  ".join(filter(None, [author, date]))`. -/
def joinMeta (a d : String) : String :=
  if a ≠ "" ∧ d ≠ "" then a ++ "  |  " ++ d
  else if a ≠ "" then a else d

/-- Python `str(x).zfill(2)` on a plain digit string. -/
def zfill2 (s : String) : String :=
  if s.length < 2 then String.mk (List.replicate (2 - s.length) '0' ++ s.data) else s

def _build_title_slide (sd : SlideData) (th : Theme) (font : String) : Slide :=
  [.bgGradient th.gradient_start th.gradient_end 225,
   .circle 10.5 (-1.5) 4 (lightenHex th.accent 0.2) none 0,
   .circle (-1.5) 5.5 3.5 (darkenHex th.primary 0.5) none 0,
   .bar 1.5 3.2 2.5 0.06 th.accent,
   .textBox 1.5 1.5 10 1.8
     {text := sd.title.getD "Presentation Title", font_size := some 42,
      bold := true, color := some th.text_light, align := "LEFT",
      vertical_anchor := "BOTTOM", font_name := some font}] ++
  (if sd.subtitle ≠ "" then
    [.textBox 1.5 3.5 9 1.0
      {text := sd.subtitle, font_size := some 20,
       color := some (lightenHex th.text_light 0.15), align := "LEFT",
       vertical_anchor := "TOP"}]
   else []) ++
  (if joinMeta sd.author sd.date ≠ "" then
    [.textBox 1.5 5.8 8 0.5
      {text := joinMeta sd.author sd.date, font_size := some 14,
       color := some (lightenHex th.text_light 0.3), align := "LEFT"}]
   else []) ++
  [.bar 0 7.25 13.333 0.08 th.accent]

def _build_section_slide (sd : SlideData) (th : Theme) : Slide :=
  [.bgGradient th.gradient_start (darkenHex th.gradient_end 0.8) 200] ++
  (if sd.section_number ≠ "" then
    [.textBox 1 1.5 4 3
      {text := zfill2 sd.section_number, font_size := some 96, bold := true,
       color := some (lightenHex th.accent 0.15), align := "LEFT",
       vertical_anchor := "MIDDLE"}]
   else []) ++
  [.textBox 1.5 3.0 10 2.0
    {text := sd.title.getD "Section Title", font_size := some 38, bold := true,
     color := some th.text_light, align := "LEFT", vertical_anchor := "MIDDLE"}] ++
  (if sd.subtitle ≠ "" then
    [.bar 1.5 5.0 2 0.05 th.accent,
     .textBox 1.5 5.2 9 0.8
       {text := sd.subtitle, font_size := some 18,
        color := some (lightenHex th.text_light 0.2), align := "LEFT"}]
   else []) ++
  [.bar 0 7.25 13.333 0.08 th.accent]

def _build_content_slide (k : Nat) (sd : SlideData) (th : Theme) : Slide :=
  titleBarFurniture (sd.title.getD "") th ++
  (match sd.content with
   | some cv =>
     if cv.isTruthy then
       [.textBox 0.8 1.4 11.5 5.2 (setdefaultsSp cv.toCfg 18 th.text_dark 1.5)]
     else []
   | none => []) ++
  sd.elements.map SlideElem.element ++
  _add_slide_footer k th

/-- The column-content defaults of `_build_two_column_slide`
(`font_size 15`, `color text_dark`). -/
def twoColContent (cv : Option ContentVal) (th : Theme) : TextCfg :=
  setdefaults (cv.getD (.cfg {})).toCfg 15 th.text_dark

def _build_two_column_slide (k : Nat) (sd : SlideData) (th : Theme) : Slide :=
  titleBarFurniture (sd.title.getD "") th ++
  [.roundedRect 0.5 1.5 5.9 5.2 th.card_bg (some th.card_border) 1.5 true] ++
  (if sd.left_title.getD "" ≠ "" then
    [.bar 0.8 1.7 1.5 0.05 th.accent,
     .textBox 0.8 1.85 5.3 0.5
       {text := sd.left_title.getD "", font_size := some 18, bold := true,
        color := some th.primary, align := "LEFT"},
     .textBox 0.8 2.5 5.3 3.8 (twoColContent sd.left_column th)]
   else [.textBox 0.8 1.8 5.3 4.5 (twoColContent sd.left_column th)]) ++
  [.roundedRect 6.9 1.5 5.9 5.2 th.card_bg (some th.card_border) 1.5 true] ++
  (if sd.right_title.getD "" ≠ "" then
    [.bar 7.2 1.7 1.5 0.05 th.accent,
     .textBox 7.2 1.85 5.3 0.5
       {text := sd.right_title.getD "", font_size := some 18, bold := true,
        color := some th.primary, align := "LEFT"},
     .textBox 7.2 2.5 5.3 3.8 (twoColContent sd.right_column th)]
   else [.textBox 7.2 1.8 5.3 4.5 (twoColContent sd.right_column th)]) ++
  _add_slide_footer k th

/-- The elements drawn for column `i` of a three-column slide. -/
def threeColumnElems (i : Nat) (col : ColumnCfg) (th : Theme) : List SlideElem :=
  let x : ℚ := 0.5 + (i : ℚ) * (3.7 + 0.45)
  let title_top : ℚ := if col.icon = "" then 2.0 else 2.7
  let content_top : ℚ := title_top + 0.6
  [.roundedRect x 1.5 3.7 5.2 th.card_bg (some th.card_border) 1.5 true,
   .bar (x + 0.3) 1.7 1.2 0.05 th.accent] ++
  (if col.icon ≠ "" then
    [.textBox (x + 0.3) 1.9 1 0.8
      {text := col.icon, font_size := some 28, align := "LEFT",
       color := some th.primary, bold := true}]
   else []) ++
  (if col.title ≠ "" then
    [.textBox (x + 0.3) title_top (3.7 - 0.6) 0.5
      {text := col.title, font_size := some 16, bold := true,
       color := some th.primary, align := "LEFT"}]
   else []) ++
  [.textBox (x + 0.3) content_top (3.7 - 0.6) (5.2 - (content_top - 1.5) + 0.3)
    (setdefaults (col.content.getD (.cfg {})).toCfg 13 th.text_dark)]

def _build_three_column_slide (k : Nat) (sd : SlideData) (th : Theme) : Slide :=
  titleBarFurniture (sd.title.getD "") th ++
  (sd.columns.take 3).enum.flatMap (fun p => threeColumnElems p.1 p.2 th) ++
  _add_slide_footer k th

/-- The elements drawn for one card of a cards slide, on its grid
rectangle `r`: card body, accent bar, then icon / title / content with
the running `current_y` cursor. -/
def cardElems (card : CardCfg) (r : Region) (th : Theme) : List SlideElem :=
  let y0 : ℚ := r.y + 0.3
  let y1 : ℚ := if card.icon ≠ "" then y0 + 0.55 else y0
  let y2 : ℚ := if card.title ≠ "" then y1 + 0.45 else y1
  [.roundedRect r.x r.y r.w r.h th.card_bg (some th.card_border) 1.5 true,
   .bar (r.x + 0.25) (r.y + 0.15) 0.8 0.04 th.accent] ++
  (if card.icon ≠ "" then
    [.textBox (r.x + 0.25) y0 1 0.6
      {text := card.icon, font_size := some 22, bold := true,
       color := some th.primary, align := "LEFT"}]
   else []) ++
  (if card.title ≠ "" then
    [.textBox (r.x + 0.25) y1 (r.w - 0.5) 0.4
      {text := card.title, font_size := some 14, bold := true,
       color := some th.primary, align := "LEFT"}]
   else []) ++
  (match card.content with
   | some cv =>
     if cv.isTruthy then
       [.textBox (r.x + 0.25) y2 (r.w - 0.5) (r.h - (y2 - r.y) - 0.2)
         (setdefaultsSp cv.toCfg 12 th.text_dark 1.3)]
     else []
   | none => [])

def _build_cards_slide (k : Nat) (sd : SlideData) (th : Theme) : Slide :=
  if sd.cards = [] then
    titleBarFurniture (sd.title.getD "") th ++ _add_slide_footer k th
  else
    titleBarFurniture (sd.title.getD "") th ++
    ((sd.cards.take 6).zip (cardRegions sd.cards.length)).flatMap
      (fun p => cardElems p.1 p.2 th) ++
    _add_slide_footer k th

def _build_chart_slide (k : Nat) (sd : SlideData) (th : Theme) : Slide :=
  titleBarFurniture (sd.title.getD "") th ++
  (match sd.description with
   | some d =>
     if d.isTruthy then
       [.nativeChart 0.5 1.4 8 5.2 (_add_native_chart_data sd.chart),
        .roundedRect 8.8 1.5 4.2 5.0 th.card_bg (some th.card_border) 1 false,
        .textBox 9.0 1.7 3.8 4.6 (setdefaultsSp d.toCfg 14 th.text_dark 1.4)]
     else [.nativeChart 0.8 1.4 11.5 5.3 (_add_native_chart_data sd.chart)]
   | none => [.nativeChart 0.8 1.4 11.5 5.3 (_add_native_chart_data sd.chart)]) ++
  _add_slide_footer k th

/-- `card_w` of `_build_stats_slide`: equal split of `12.3` with gap
`0.4` for up to 5 stats, the 5-column width beyond that. -/
def statCardWidth (n : Nat) : ℚ :=
  if n ≤ 5 then (12.3 - ((n : ℚ) - 1) * 0.4) / (n : ℚ) else (12.3 - 4 * 0.4) / 5

/-- The elements drawn for stat card `i`. -/
def statElems (i : Nat) (stat : StatCfg) (th : Theme) (card_w : ℚ) : List SlideElem :=
  let cx : ℚ := 0.5 + (i : ℚ) * (card_w + 0.4)
  let y0 : ℚ := 2.2 + 0.3
  let y1 : ℚ := if stat.icon ≠ "" then y0 + 0.6 else y0
  let y2 : ℚ := y1 + 1.0
  [.roundedRect cx 2.2 card_w 3.5 th.card_bg (some th.card_border) 1.5 true,
   .bar cx 2.2 card_w 0.06 th.accent] ++
  (if stat.icon ≠ "" then
    [.textBox (cx + 0.2) y0 (card_w - 0.4) 0.6
      {text := stat.icon, font_size := some 24, align := "CENTER",
       color := some th.accent}]
   else []) ++
  [.textBox (cx + 0.2) y1 (card_w - 0.4) 1.0
    {text := stat.value, font_size := some 36, bold := true,
     color := some th.primary, align := "CENTER", vertical_anchor := "MIDDLE"}] ++
  (if stat.label ≠ "" then
    [.textBox (cx + 0.2) y2 (card_w - 0.4) 0.6
      {text := stat.label, font_size := some 14, color := some th.text_dark,
       align := "CENTER"}]
   else []) ++
  (if stat.description ≠ "" then
    [.textBox (cx + 0.2) (y2 + 0.55) (card_w - 0.4) 0.8
      {text := stat.description, font_size := some 11, color := some "#888888",
       align := "CENTER", line_spacing := some 1.2}]
   else [])

def _build_stats_slide (k : Nat) (sd : SlideData) (th : Theme) : Slide :=
  if sd.stats = [] then
    titleBarFurniture (sd.title.getD "") th ++ _add_slide_footer k th
  else
    titleBarFurniture (sd.title.getD "") th ++
    (sd.stats.take 5).enum.flatMap
      (fun p => statElems p.1 p.2 th (statCardWidth sd.stats.length)) ++
    _add_slide_footer k th

/-- Projection of a slide element to its rectangle when it is a text box. -/
def textBoxRegion : SlideElem → Option Region
  | .textBox x y w h _ => some ⟨x, y, w, h⟩
  | _ => none

/-- The content text boxes of timeline step `i` (the `i % 2` branch of
the step loop), with their styling. -/
def timelineContentElems (n i : Nat) (step : TimelineStep) (th : Theme) :
    List SlideElem :=
  let sw := timelineStepWidth n
  let cx := timelineCenterX n i
  let bx := cx - sw / 2 + 0.1
  let bw := sw - 0.2
  if i % 2 = 0 then
    (if step.time_label ≠ "" then
      [.textBox bx 1.5 bw 0.4
        {text := step.time_label, font_size := some 11, bold := true,
         color := some th.accent, align := "CENTER"}]
     else []) ++
    [.textBox bx 1.9 bw 0.5
      {text := step.title, font_size := some 14, bold := true,
       color := some th.primary, align := "CENTER"}] ++
    (if step.description ≠ "" then
      [.textBox bx 2.4 bw 1.2
        {text := step.description, font_size := some 11,
         color := some th.text_dark, align := "CENTER", line_spacing := some 1.2}]
     else [])
  else
    [.textBox bx 4.2 bw 0.5
      {text := step.title, font_size := some 14, bold := true,
       color := some th.primary, align := "CENTER"}] ++
    (if step.time_label ≠ "" then
      [.textBox bx 4.7 bw 0.4
        {text := step.time_label, font_size := some 11, bold := true,
         color := some th.accent, align := "CENTER"}]
     else []) ++
    (if step.description ≠ "" then
      [.textBox bx 5.1 bw 1.2
        {text := step.description, font_size := some 11,
         color := some th.text_dark, align := "CENTER", line_spacing := some 1.2}]
     else [])

/-- All elements of timeline step `i`: node circle centered on the axis,
the step number inside it, then the alternating content. -/
def timelineStepElems (n i : Nat) (step : TimelineStep) (th : Theme) :
    List SlideElem :=
  [.circle (timelineMarkerLeft n i) (timelineLineY - 0.4 / 2 + 0.02) 0.4
     th.accent (some th.primary) 2,
   .textBox (timelineMarkerLeft n i) (timelineLineY - 0.4 / 2 + 0.02) 0.4 0.4
     {text := toString (i + 1), font_size := some 12, bold := true,
      color := some th.text_light, align := "CENTER",
      vertical_anchor := "MIDDLE", margin_left := some 0,
      margin_right := some 0, margin_top := some 0, margin_bottom := some 0}] ++
  timelineContentElems n i step th

def _build_timeline_slide (k : Nat) (sd : SlideData) (th : Theme) : Slide :=
  if sd.steps = [] then
    titleBarFurniture (sd.title.getD "") th ++ _add_slide_footer k th
  else
    titleBarFurniture (sd.title.getD "") th ++
    [.bar 0.8 timelineLineY 11.7 0.04 th.secondary] ++
    sd.steps.enum.flatMap (fun p => timelineStepElems sd.steps.length p.1 p.2 th) ++
    _add_slide_footer k th

def _build_table_slide (k : Nat) (sd : SlideData) (th : Theme) : Slide :=
  let tc : TableCfg :=
    {sd.table with left := some (sd.table.left.getD 0.5),
                   top := some (sd.table.top.getD 1.5),
                   width := some (sd.table.width.getD 12.3)}
  titleBarFurniture (sd.title.getD "") th ++
  (match _add_styled_table tc with
   | some t => [.tableShape t]
   | none => []) ++
  _add_slide_footer k th

/-- Python `os.path.join(workspace, path)` (an absolute `path` wins). -/
def joinPath (w p : String) : String :=
  if p.startsWith "/" then p else w ++ "/" ++ p

def _build_image_slide (k : Nat) (sd : SlideData) (th : Theme)
    (workspace : String) (fsExists : String → Bool) : Slide :=
  titleBarFurniture (sd.title.getD "") th ++
  (if sd.image_path ≠ "" then
    if fsExists (joinPath workspace sd.image_path) then
      match sd.description with
      | some d =>
        if d.isTruthy then
          [.picture (joinPath workspace sd.image_path) 0.8 1.5 7.5 5,
           .textBox 8.8 1.5 4 5 (setdefaults d.toCfg 14 th.text_dark)]
        else [.picture (joinPath workspace sd.image_path) 1.5 1.5 10 5]
      | none => [.picture (joinPath workspace sd.image_path) 1.5 1.5 10 5]
    else []
   else []) ++
  (if sd.caption ≠ "" then
    [.textBox 0.8 6.5 11.5 0.5
      {text := sd.caption, font_size := some 12, italic := true,
       color := some "#888888", align := "CENTER"}]
   else []) ++
  _add_slide_footer k th

def _build_comparison_slide (k : Nat) (sd : SlideData) (th : Theme) : Slide :=
  let lc := sd.left_color.getD th.primary
  let rc := sd.right_color.getD th.accent
  titleBarFurniture (sd.title.getD "") th ++
  [.roundedRect 0.5 1.5 5.9 5.2 th.card_bg (some lc) 2 true,
   .bar 0.5 1.5 5.9 0.06 lc,
   .textBox 0.8 1.7 5.3 0.6
     {text := sd.left_title.getD "Option A", font_size := some 20, bold := true,
      color := some lc, align := "CENTER"}] ++
  (if sd.left_items ≠ [] then
    [.textBox 0.8 2.5 5.3 3.8
      {bullets := sd.left_items, font_size := some 14,
       color := some th.text_dark, line_spacing := some 1.5}]
   else []) ++
  [.circle 6.1 3.5 0.8 th.secondary none 0,
   .textBox 6.1 3.5 0.8 0.8
     {text := "VS", font_size := some 14, bold := true,
      color := some th.text_light, align := "CENTER",
      vertical_anchor := "MIDDLE", margin_left := some 0,
      margin_right := some 0, margin_top := some 0, margin_bottom := some 0},
   .roundedRect 6.9 1.5 5.9 5.2 th.card_bg (some rc) 2 true,
   .bar 6.9 1.5 5.9 0.06 rc,
   .textBox 7.2 1.7 5.3 0.6
     {text := sd.right_title.getD "Option B", font_size := some 20,
      bold := true, color := some rc, align := "CENTER"}] ++
  (if sd.right_items ≠ [] then
    [.textBox 7.2 2.5 5.3 3.8
      {bullets := sd.right_items, font_size := some 14,
       color := some th.text_dark, line_spacing := some 1.5}]
   else []) ++
  _add_slide_footer k th

def _build_quote_slide (sd : SlideData) (th : Theme) : Slide :=
  [.bgGradient th.gradient_start th.gradient_end 225,
   .textBox 1 1.2 3 2
     {text := "“", font_size := some 120, bold := true,
      color := some (lightenHex th.accent 0.2), align := "LEFT",
      vertical_anchor := "TOP"},
   .textBox 2 2.5 9.5 3
     {text := sd.quote.getD (sd.text.getD ""), font_size := some 28,
      italic := true, color := some th.text_light, align := "CENTER",
      vertical_anchor := "MIDDLE", line_spacing := some 1.5}] ++
  (if sd.author ≠ "" then
    [.bar 5.5 5.5 2 0.04 th.accent,
     .textBox 2 5.7 9.5 0.6
       {text := "— " ++ sd.author, font_size := some 18,
        color := some (lightenHex th.text_light 0.2), align := "CENTER"}]
   else []) ++
  [.bar 0 7.25 13.333 0.08 th.accent]

def _build_ending_slide (sd : SlideData) (th : Theme) : Slide :=
  [.bgGradient th.gradient_start th.gradient_end 225,
   .circle 10 (-1) 3.5 (lightenHex th.accent 0.15) none 0,
   .circle (-1) 5 3 (darkenHex th.primary 0.5) none 0,
   .textBox 1 2.0 11.3 2.5
     {text := sd.title.getD (sd.text.getD "Thank You"), font_size := some 48,
      bold := true, color := some th.text_light, align := "CENTER",
      vertical_anchor := "MIDDLE"}] ++
  (if sd.subtitle ≠ "" then
    [.textBox 2 4.5 9.3 1.0
      {text := sd.subtitle, font_size := some 20,
       color := some (lightenHex th.text_light 0.2), align := "CENTER"}]
   else []) ++
  (if sd.contact ≠ "" then
    [.textBox 2 5.5 9.3 0.8
      {text := sd.contact, font_size := some 16,
       color := some (lightenHex th.text_light 0.3), align := "CENTER"}]
   else []) ++
  [.bar 0 7.25 13.333 0.08 th.accent]

/-! ## Content block dispatcher (`ppt_tools.py` 1452–1537) -/

/-- The distinct builder functions registered in `SLIDE_BUILDERS`. -/
inductive BuilderTag where
  | titleB | sectionB | contentB | twoColumnB | threeColumnB | cardsB
  | chartB | statsB | timelineB | tableB | imageB | comparisonB
  | quoteB | endingB
deriving DecidableEq

/-- The `SLIDE_BUILDERS` registry: tag string to builder (aliases map to
the same builder). -/
def SLIDE_BUILDERS : List (String × BuilderTag) :=
  [("title", .titleB), ("cover", .titleB),
   ("section", .sectionB), ("divider", .sectionB),
   ("content", .contentB), ("text", .contentB),
   ("two_column", .twoColumnB), ("two_columns", .twoColumnB),
   ("three_column", .threeColumnB), ("three_columns", .threeColumnB),
   ("cards", .cardsB), ("chart", .chartB),
   ("stats", .statsB), ("statistics", .statsB),
   ("timeline", .timelineB), ("table", .tableB), ("image", .imageB),
   ("comparison", .comparisonB), ("quote", .quoteB),
   ("ending", .endingB), ("thank_you", .endingB)]

/-- `slide_data.get("slide_type", "content").lower().strip()`. -/
def dispatchSlideType (sd : SlideData) : String :=
  ((sd.slide_type.getD "content").toLower).trim

/-- Apply one builder.  `k` is the slide's 1-based position; only the
image builder consults the workspace and the filesystem. -/
def buildSlideOf (tag : BuilderTag) (k : Nat) (sd : SlideData) (th : Theme)
    (font : String) (workspace : String) (fsExists : String → Bool) : Slide :=
  match tag with
  | .titleB => _build_title_slide sd th font
  | .sectionB => _build_section_slide sd th
  | .contentB => _build_content_slide k sd th
  | .twoColumnB => _build_two_column_slide k sd th
  | .threeColumnB => _build_three_column_slide k sd th
  | .cardsB => _build_cards_slide k sd th
  | .chartB => _build_chart_slide k sd th
  | .statsB => _build_stats_slide k sd th
  | .timelineB => _build_timeline_slide k sd th
  | .tableB => _build_table_slide k sd th
  | .imageB => _build_image_slide k sd th workspace fsExists
  | .comparisonB => _build_comparison_slide k sd th
  | .quoteB => _build_quote_slide sd th
  | .endingB => _build_ending_slide sd th

/-- The builder the dispatcher selects: the registry entry for the
normalized tag, and `_build_content_slide` as the fallback for an
unknown tag (`else` branch of the dispatch loop). -/
def builderFor (sd : SlideData) : BuilderTag :=
  (SLIDE_BUILDERS.lookup (dispatchSlideType sd)).getD .contentB

/-- The one slide the dispatch loop appends for `sd` when `k-1` slides
exist already. -/
def dispatchNewSlide (th : Theme) (font workspace : String)
    (fsExists : String → Bool) (k : Nat) (sd : SlideData) : Slide :=
  buildSlideOf (builderFor sd) k sd th font workspace fsExists

/-- One iteration of the dispatch loop: every builder calls
`prs.slides.add_slide` exactly once, so the presentation grows by the
one new slide, whose footer (when the builder adds one) reads
`len(prs.slides) = prs.length + 1`. -/
def dispatchSlide (th : Theme) (font workspace : String)
    (fsExists : String → Bool) (prs : List Slide) (sd : SlideData) :
    List Slide :=
  prs ++ [dispatchNewSlide th font workspace fsExists (prs.length + 1) sd]

/-! ## Entry points and the error contract

Effects are made explicit: `fsExists` answers `os.path.exists`;
`saveError`/`renderError` is `some msg` when the corresponding Python
region raises (`OSError` on save, any exception while rendering).
`PyOutcome.raises` models an exception escaping the call.

`generate_pptx_presentation` (`ppt_tools.py` 1477–1537) has NO
`try/except`: after the missing-workspace guard, an exception from the
slide loop or from `prs.save(full_path)` propagates to the caller.
`generate_word_document` (`office_tools.py` 543/819–822) and
`generate_excel_document` (`office_tools.py` 938/1161–1164) wrap the
whole block loop and the final save in `try/except Exception` and
return `{"error": ...}` instead.  The word/excel block loops are not
geometry and are summarized by their outcome; the slide loop is the
full embedding above. -/

inductive PyOutcome (α : Type) where
  | returns (a : α)
  | raises (msg : String)
deriving DecidableEq

/-- Did the call end with an exception escaping to the caller? -/
def PyOutcome.isRaises : PyOutcome α → Bool
  | .raises _ => true
  | .returns _ => false

/-- The `presentation_settings` dict. -/
structure PresentationSettings where
  theme : Option String := none
  default_font : Option String := none
  custom_colors : Option CustomColors := none
  author : Option String := none
  title : Option String := none
deriving DecidableEq

/-- The success record of `generate_pptx_presentation` (keys `success`,
`file_path`, `slides_count`, `theme`, `message`) or its error record
(key `error`). -/
inductive PptxResult where
  | ok (file_path : String) (slides_count : Nat) (theme : String) (message : String)
  | err (error : String)
deriving DecidableEq

/-- `slides_count` of a successful return, `none` otherwise. -/
def PyOutcome.pptxCount : PyOutcome PptxResult → Option Nat
  | .returns (.ok _ n _ _) => some n
  | _ => none

/-- The resolved theme: named preset (default `"midnight"`, unknown
names fall back to midnight) merged with `custom_colors`. -/
def resolveTheme (settings : PresentationSettings) : Theme :=
  match settings.custom_colors with
  | some cc => mergeTheme (_get_theme (settings.theme.getD "midnight")) cc
  | none => _get_theme (settings.theme.getD "midnight")

/-- The success message (the original quotes the theme name). -/
def pptxMessage (n : Nat) (theme_name : String) : String :=
  "Presentation saved with " ++ toString n ++ " slides using " ++
    theme_name ++ " theme."

/-- All slides built by the dispatch loop. -/
def pptxSlides (th : Theme) (font workspace : String)
    (fsExists : String → Bool) (slides_content : List SlideData) : List Slide :=
  slides_content.foldl (dispatchSlide th font workspace fsExists) []

/-- `generate_pptx_presentation(file_path, slides_content,
presentation_settings)`. -/
def generate_pptx_presentation (workspace : Option String)
    (fsExists : String → Bool) (saveError : Option String)
    (file_path : String) (slides_content : List SlideData)
    (psettings : Option PresentationSettings) : PyOutcome PptxResult :=
  match workspace with
  | none => .returns (.err "Workspace not configured. Please set up workspace first.")
  | some ws =>
    let settings := psettings.getD {}
    let theme_name := settings.theme.getD "midnight"
    let th := resolveTheme settings
    let font := settings.default_font.getD "微软雅黑"
    let prs := pptxSlides th font ws fsExists slides_content
    match saveError with
    | some e => .raises e
    | none =>
      .returns (.ok (joinPath ws file_path) prs.length theme_name
        (pptxMessage prs.length theme_name))

/-- The success record of the word/excel generators (keys `success`,
`file_path`, `message`) or their error record. -/
inductive OfficeResult where
  | ok (file_path : String) (message : String)
  | err (error : String)
deriving DecidableEq

/-- `generate_word_document`: outside the `try` only the
missing-workspace guard; inside it, any exception `e` from the block
loop or `doc.save` becomes `{"error": f"Word generation error: {e}"}`. -/
def generate_word_document (workspace : Option String)
    (renderError : Option String) (file_path : String) :
    PyOutcome OfficeResult :=
  match workspace with
  | none => .returns (.err "Workspace not configured")
  | some ws =>
    match renderError with
    | some e => .returns (.err ("Word generation error: " ++ e))
    | none =>
      .returns (.ok (joinPath ws file_path)
        ("Word document saved to " ++ file_path))

/-- `generate_excel_document`: same try/except structure as the word
generator. -/
def generate_excel_document (workspace : Option String)
    (renderError : Option String) (file_path : String) :
    PyOutcome OfficeResult :=
  match workspace with
  | none => .returns (.err "Workspace not configured")
  | some ws =>
    match renderError with
    | some e => .returns (.err ("Excel generation error: " ++ e))
    | none =>
      .returns (.ok (joinPath ws file_path)
        ("Excel document saved to " ++ file_path))

/-- Which builders end with `_add_slide_footer` (title, section, quote
and ending slides draw their own full-bleed furniture instead). -/
def builderAddsFooter : BuilderTag → Bool
  | .titleB => false
  | .sectionB => false
  | .quoteB => false
  | .endingB => false
  | _ => true

/-! ## Helper lemmas -/

lemma hexVal?_ne_hash {c : Char} {v : Nat} (h : hexVal? c = some v) : c ≠ '#' := by
  intro hc
  subst hc
  exact Option.noConfusion ((show hexVal? '#' = none by decide) ▸ h)

lemma lstripHash_cons_of_ne {c : Char} (l : List Char) (h : c ≠ '#') :
    lstripHash (c :: l) = c :: l := by
  rw [lstripHash.eq_def]
  split
  next rest heq =>
    injection heq with hc
    exact absurd hc h
  next => rfl

lemma cardsGridSpec_of_ge_six {n : Nat} (h : 6 ≤ n) : cardsGridSpec n = (3, 2, 6) := by
  rcases Nat.lt_or_ge n 7 with h7 | h7
  · have hn : n = 6 := by omega
    subst hn
    rfl
  · unfold cardsGridSpec
    rw [if_neg (by omega), if_neg (by omega), if_neg (by omega)]

lemma cardRegions_of_ge_six {n : Nat} (h : 6 ≤ n) : cardRegions n = cardRegions 6 := by
  unfold cardRegions
  rw [if_neg (by omega), cardsGridSpec_of_ge_six h,
    if_neg (by omega : ¬ (6 : Nat) = 0), cardsGridSpec_of_ge_six (by omega : 6 ≤ 6)]

lemma getD_replicate_zero (n j : Nat) : (List.replicate n (0 : ℚ)).getD j 0 = 0 := by
  rw [List.getD_eq_getElem?_getD]
  rcases Nat.lt_or_ge j n with h | h
  · simp [List.getElem?_replicate, h]
  · simp [List.getElem?_eq_none
      (by simpa using h : (List.replicate n (0 : ℚ)).length ≤ j)]

lemma zipWith_add_getD (a b : List ℚ) (j : Nat) (ha : j < a.length) (hb : j < b.length) :
    (a.zipWith (· + ·) b).getD j 0 = a.getD j 0 + b.getD j 0 := by
  induction a generalizing b j with
  | nil => simp at ha
  | cons x xs ih =>
    cases b with
    | nil => simp at hb
    | cons y ys =>
      cases j with
      | zero => simp
      | succ j =>
        simp only [List.zipWith_cons_cons, List.getD_cons_succ]
        exact ih ys j (by simpa using ha) (by simpa using hb)

lemma stackedBars_getD_bottom (cats : Nat) (series : List ChartSeriesCfg)
    (bottom : List ℚ) (i : Nat) (hi : i < series.length) :
    ((stackedBars cats bottom series).getD i ⟨[], []⟩).bottom
      = stackedFinal cats bottom (series.take i) := by
  induction series generalizing bottom i with
  | nil => simp at hi
  | cons s rest ih =>
    cases i with
    | zero => simp [stackedBars, stackedFinal]
    | succ i =>
      simp only [stackedBars, List.getD_cons_succ, List.take_succ_cons, stackedFinal]
      exact ih _ i (by simpa using hi)

lemma stackedFinal_getD (cats : Nat) (series : List ChartSeriesCfg) (bottom : List ℚ)
    (j : Nat) (hb : bottom.length = cats) (hj : j < cats)
    (hs : ∀ s ∈ series, cats ≤ (s.values.getD (List.replicate cats 0)).length) :
    (stackedFinal cats bottom series).getD j 0
      = bottom.getD j 0 + ∑ k in Finset.range series.length,
          (((series.getD k {}).values.getD (List.replicate cats 0)).take cats).getD j 0 := by
  induction series generalizing bottom with
  | nil => simp [stackedFinal]
  | cons s rest ih =>
    have hvals : ((s.values.getD (List.replicate cats 0)).take cats).length = cats := by
      have := hs s (by simp)
      simp only [List.length_take]
      omega
    have hlen2 : (bottom.zipWith (· + ·)
        ((s.values.getD (List.replicate cats 0)).take cats)).length = cats := by
      simp [List.length_zipWith, hb, hvals]
    rw [stackedFinal, ih _ hlen2 (fun s' hs' => hs s' (by simp [hs']))]
    rw [zipWith_add_getD _ _ j (by omega) (by omega)]
    rw [List.length_cons, Finset.sum_range_succ']
    simp only [List.getD_cons_succ, List.getD_cons_zero]
    ring

/-- A filesystem oracle with no files, for concrete instantiations. -/
def noFiles : String → Bool := fun _ => false

/-- The slides the dispatch loop appends after `base` slides already
exist: slide `i` of the batch is numbered `base + i + 1`. -/
def slidesFrom (th : Theme) (font ws : String) (fsE : String → Bool)
    (base : Nat) : List SlideData → List Slide
  | [] => []
  | sd :: rest =>
    dispatchNewSlide th font ws fsE (base + 1) sd ::
      slidesFrom th font ws fsE (base + 1) rest

lemma foldl_dispatchSlide (th : Theme) (font ws : String) (fsE : String → Bool)
    (contents : List SlideData) (prs : List Slide) :
    contents.foldl (dispatchSlide th font ws fsE) prs
      = prs ++ slidesFrom th font ws fsE prs.length contents := by
  induction contents generalizing prs with
  | nil => simp [slidesFrom]
  | cons sd rest ih =>
    simp only [List.foldl_cons, slidesFrom]
    rw [show dispatchSlide th font ws fsE prs sd
        = prs ++ [dispatchNewSlide th font ws fsE (prs.length + 1) sd] from rfl]
    rw [ih]
    simp [List.append_assoc]

lemma slidesFrom_length (th : Theme) (font ws : String) (fsE : String → Bool)
    (base : Nat) (contents : List SlideData) :
    (slidesFrom th font ws fsE base contents).length = contents.length := by
  induction contents generalizing base with
  | nil => rfl
  | cons sd rest ih => simp [slidesFrom, ih]

lemma slidesFrom_getD (th : Theme) (font ws : String) (fsE : String → Bool)
    (base i : Nat) (contents : List SlideData) (hi : i < contents.length) :
    (slidesFrom th font ws fsE base contents).getD i []
      = dispatchNewSlide th font ws fsE (base + i + 1) (contents.getD i {}) := by
  induction contents generalizing base i with
  | nil => simp at hi
  | cons sd rest ih =>
    cases i with
    | zero => simp [slidesFrom]
    | succ i =>
      simp only [slidesFrom, List.getD_cons_succ]
      rw [ih _ i (by simpa using hi)]
      congr 1
      omega

lemma footer_suffix_of_addsFooter (tag : BuilderTag) (k : Nat) (sd : SlideData)
    (th : Theme) (font ws : String) (fsE : String → Bool)
    (h : builderAddsFooter tag = true) :
    _add_slide_footer k th <:+ buildSlideOf tag k sd th font ws fsE := by
  cases tag
  case titleB => simp [builderAddsFooter] at h
  case sectionB => simp [builderAddsFooter] at h
  case quoteB => simp [builderAddsFooter] at h
  case endingB => simp [builderAddsFooter] at h
  case contentB =>
    show _add_slide_footer k th <:+ _build_content_slide k sd th
    unfold _build_content_slide
    exact List.suffix_append _ _
  case twoColumnB =>
    show _add_slide_footer k th <:+ _build_two_column_slide k sd th
    unfold _build_two_column_slide
    exact List.suffix_append _ _
  case threeColumnB =>
    show _add_slide_footer k th <:+ _build_three_column_slide k sd th
    unfold _build_three_column_slide
    exact List.suffix_append _ _
  case cardsB =>
    show _add_slide_footer k th <:+ _build_cards_slide k sd th
    unfold _build_cards_slide
    split
    · exact List.suffix_append _ _
    · exact List.suffix_append _ _
  case chartB =>
    show _add_slide_footer k th <:+ _build_chart_slide k sd th
    unfold _build_chart_slide
    exact List.suffix_append _ _
  case statsB =>
    show _add_slide_footer k th <:+ _build_stats_slide k sd th
    unfold _build_stats_slide
    split
    · exact List.suffix_append _ _
    · exact List.suffix_append _ _
  case timelineB =>
    show _add_slide_footer k th <:+ _build_timeline_slide k sd th
    unfold _build_timeline_slide
    split
    · exact List.suffix_append _ _
    · exact List.suffix_append _ _
  case tableB =>
    show _add_slide_footer k th <:+ _build_table_slide k sd th
    unfold _build_table_slide
    exact List.suffix_append _ _
  case imageB =>
    show _add_slide_footer k th <:+ _build_image_slide k sd th ws fsE
    unfold _build_image_slide
    exact List.suffix_append _ _
  case comparisonB =>
    show _add_slide_footer k th <:+ _build_comparison_slide k sd th
    unfold _build_comparison_slide
    exact List.suffix_append _ _

/-! ## Claim theorems -/

/-- C1: For every card list of length `n ≥ 1` the cards slide builder
picks the grid by the fixed thresholds (`n ≤ 3` gives `(n, 1)`, `n = 4`
gives `(2, 2)`, `n ∈ [5, 6]` gives `(3, 2)`, `n > 6` keeps only the
first 6 cards with `(3, 2)`), and the resulting card regions number at
most 6 (exactly `min n 6`), each has positive width and height, they are
pairwise non-overlapping, and every card's width is
`(12.3 - (cols - 1) * 0.35) / cols`. -/
theorem cards_grid_layout (n : Nat) (hn : 1 ≤ n) :
    (cardsGridSpec n = if n ≤ 3 then (n, 1, n)
       else if n = 4 then (2, 2, 4)
       else if n ≤ 6 then (3, 2, n) else (3, 2, 6))
  ∧ (cardRegions n).length = min n 6
  ∧ (∀ r ∈ cardRegions n, 0 < r.w ∧ 0 < r.h)
  ∧ (cardRegions n).Pairwise RegionDisjoint
  ∧ (∀ r ∈ cardRegions n,
       r.w = (12.3 - (((cardsGridSpec n).1 : ℚ) - 1) * 0.35) / ((cardsGridSpec n).1 : ℚ)) := by
  rcases Nat.lt_or_ge n 7 with h7 | h7
  · interval_cases n <;>
      refine ⟨?_, ?_, ?_, ?_, ?_⟩ <;>
      with_unfolding_all decide
  · have hs := cardsGridSpec_of_ge_six (by omega : 6 ≤ n)
    have hr := cardRegions_of_ge_six (by omega : 6 ≤ n)
    refine ⟨?_, ?_, ?_, ?_, ?_⟩
    · rw [hs, if_neg (by omega), if_neg (by omega), if_neg (by omega)]
    · rw [hr, show min n 6 = 6 by omega]
      with_unfolding_all decide
    · rw [hr]
      with_unfolding_all decide
    · rw [hr]
      with_unfolding_all decide
    · rw [hr, hs]
      with_unfolding_all decide

/-- Witness for C1 at `n = 5` and at the clamped `n = 9`. -/
theorem cards_grid_layout_witness :
    ((cardRegions 5).length = min 5 6 ∧ (cardRegions 5).Pairwise RegionDisjoint)
  ∧ ((cardRegions 9).length = min 9 6
      ∧ ∀ r ∈ cardRegions 9,
          r.w = (12.3 - (((cardsGridSpec 9).1 : ℚ) - 1) * 0.35) / ((cardsGridSpec 9).1 : ℚ)) :=
  ⟨⟨(cards_grid_layout 5 (by decide)).2.1, (cards_grid_layout 5 (by decide)).2.2.2.1⟩,
   ⟨(cards_grid_layout 9 (by decide)).2.1, (cards_grid_layout 9 (by decide)).2.2.2.2⟩⟩

/-- C2 (amended): for every 6-hex-digit color `#d1..d6` and every
factor, `_darken` multiplies each channel by the factor and `_lighten`
replaces each channel by `channel + (255 - channel) * factor`, each
channel passed through Python `int` (truncation toward zero, NOT
rounding), with no clamping, and the result rendered as two-digit
LOWERCASE hex per channel.  In particular
`_darken "#FFFFFF" 0.5 = "#7f7f7f"` and
`_lighten "#000000" 0.5 = "#7f7f7f"` (see the witness). -/
theorem darken_lighten_formula
    (c1 c2 c3 c4 c5 c6 : Char) (v1 v2 v3 v4 v5 v6 : Nat) (f : ℚ)
    (h1 : hexVal? c1 = some v1) (h2 : hexVal? c2 = some v2)
    (h3 : hexVal? c3 = some v3) (h4 : hexVal? c4 = some v4)
    (h5 : hexVal? c5 = some v5) (h6 : hexVal? c6 = some v6) :
    _darken (String.mk ['#', c1, c2, c3, c4, c5, c6]) f
      = some (String.mk ('#' ::
          (pyFmt02x (pyInt (((16 * v1 + v2 : Nat) : ℚ) * f)) ++
           pyFmt02x (pyInt (((16 * v3 + v4 : Nat) : ℚ) * f)) ++
           pyFmt02x (pyInt (((16 * v5 + v6 : Nat) : ℚ) * f)))))
  ∧ _lighten (String.mk ['#', c1, c2, c3, c4, c5, c6]) f
      = some (String.mk ('#' ::
          (pyFmt02x (pyInt (((16 * v1 + v2 : Nat) : ℚ) + (255 - ((16 * v1 + v2 : Nat) : ℚ)) * f)) ++
           pyFmt02x (pyInt (((16 * v3 + v4 : Nat) : ℚ) + (255 - ((16 * v3 + v4 : Nat) : ℚ)) * f)) ++
           pyFmt02x (pyInt (((16 * v5 + v6 : Nat) : ℚ) + (255 - ((16 * v5 + v6 : Nat) : ℚ)) * f))))) := by
  have hs : lstripHash (String.mk ['#', c1, c2, c3, c4, c5, c6]).data
      = [c1, c2, c3, c4, c5, c6] := by
    show lstripHash ('#' :: [c1, c2, c3, c4, c5, c6]) = _
    rw [show lstripHash ('#' :: [c1, c2, c3, c4, c5, c6])
        = lstripHash [c1, c2, c3, c4, c5, c6] from rfl]
    exact lstripHash_cons_of_ne _ (hexVal?_ne_hash h1)
  have p1 : pyIntBase16 (pySlice [c1, c2, c3, c4, c5, c6] 0 2) = some (16 * v1 + v2) := by
    show pyIntBase16 [c1, c2] = _
    simp [pyIntBase16, h1, h2]
  have p2 : pyIntBase16 (pySlice [c1, c2, c3, c4, c5, c6] 2 4) = some (16 * v3 + v4) := by
    show pyIntBase16 [c3, c4] = _
    simp [pyIntBase16, h3, h4]
  have p3 : pyIntBase16 (pySlice [c1, c2, c3, c4, c5, c6] 4 6) = some (16 * v5 + v6) := by
    show pyIntBase16 [c5, c6] = _
    simp [pyIntBase16, h5, h6]
  constructor
  · unfold _darken
    rw [hs]
    dsimp only
    rw [p1, p2, p3]
  · unfold _lighten
    rw [hs]
    dsimp only
    rw [p1, p2, p3]

/-- C2 counterexample: the claimed `darken("#FFFFFF", 0.5) = "#7F7F7F"`
fails on the code, which renders lowercase hex; moreover no clamping
happens for a factor above 1 (`darken("#FFFFFF", 2) = "#1fe1fe1fe"`,
nine digits, channels 510) and channels truncate rather than round
(`darken("#010101", 0.9) = "#000000"`, not `"#010101"`). -/
theorem darken_output_counterexample :
    _darken "#FFFFFF" (1/2) ≠ some "#7F7F7F"
  ∧ _darken "#FFFFFF" 2 = some "#1fe1fe1fe"
  ∧ _darken "#010101" (9/10) = some "#000000" := by
  refine ⟨?_, ?_, ?_⟩ <;> with_unfolding_all decide

/-- Witness for C2: the channel formula evaluated on white with factor
one half, and on black lightened by one half. -/
theorem darken_lighten_formula_witness :
    _darken "#FFFFFF" (1/2) = some "#7f7f7f"
  ∧ _lighten "#000000" (1/2) = some "#7f7f7f" := by
  have h := darken_lighten_formula 'F' 'F' 'F' 'F' 'F' 'F' 15 15 15 15 15 15 (1/2)
    (by decide) (by decide) (by decide) (by decide) (by decide) (by decide)
  have h0 := darken_lighten_formula '0' '0' '0' '0' '0' '0' 0 0 0 0 0 0 (1/2)
    (by decide) (by decide) (by decide) (by decide) (by decide) (by decide)
  constructor
  · rw [show ("#FFFFFF" : String) = String.mk ['#','F','F','F','F','F','F'] from rfl, h.1]
    with_unfolding_all decide
  · rw [show ("#000000" : String) = String.mk ['#','0','0','0','0','0','0'] from rfl, h0.2]
    with_unfolding_all decide

/-- C3 (amended): the rasterized matplotlib pie path consults only
`series[0]` (its output is unchanged when the series list is truncated
to its first element) and uses the categories as slice labels; but the
native embedded-chart path does NOT ignore the remaining series — the
chart data it builds carries every series. -/
theorem pie_series_usage (cfg : ChartCfg) :
    pieChartPlot cfg = pieChartPlot {cfg with series := cfg.series.take 1}
  ∧ (∀ s0 rest, cfg.series = s0 :: rest →
      pieChartPlot cfg = some ⟨s0.values.getD [], cfg.categories⟩)
  ∧ (_add_native_chart_data cfg).seriesCount = cfg.series.length := by
  refine ⟨?_, ?_, ?_⟩
  · cases h : cfg.series with
    | nil => simp [pieChartPlot, h]
    | cons s0 rest => simp [pieChartPlot, h]
  · intro s0 rest h
    simp [pieChartPlot, h]
  · unfold _add_native_chart_data
    dsimp only
    split <;> simp [NativeChartData.seriesCount]

/-- C3 counterexample: on the native chart path a 3-series pie config
does not produce the same embedded chart data as its first series
alone — series 1 and 2 are kept, contradicting the claim that both
output paths ignore them. -/
theorem native_pie_keeps_all_series_counterexample :
    _add_native_chart_data
        {chart_type := some "pie", categories := ["a", "b"],
         series := [{name := some "S1", values := some [1, 2]},
                    {name := some "S2", values := some [3, 4]},
                    {name := some "S3", values := some [5, 6]}]}
      ≠ _add_native_chart_data
        {chart_type := some "pie", categories := ["a", "b"],
         series := [{name := some "S1", values := some [1, 2]}]} := by
  with_unfolding_all decide

/-- Witness for C3: a two-series pie config rasterizes to the first
series' values with the categories as labels. -/
theorem pie_series_usage_witness :
    pieChartPlot
        {chart_type := some "pie", categories := ["a", "b"],
         series := [{name := some "S1", values := some [1, 2]},
                    {name := some "S2", values := some [3, 4]}]}
      = some ⟨[1, 2], ["a", "b"]⟩ := by
  have h := (pie_series_usage
    {chart_type := some "pie", categories := ["a", "b"],
     series := [{name := some "S1", values := some [1, 2]},
                {name := some "S2", values := some [3, 4]}]}).2.1
    {name := some "S1", values := some [1, 2]}
    [{name := some "S2", values := some [3, 4]}] rfl
  rw [h]
  rfl

/-- C4 (amended): the gradient routine always puts the base stops at
positions 0 and 1 in that order, and the extra stops are APPENDED after
them in input order (at fraction `int(pos*1000)/100000` of the run), so
the first stop is at 0 always, but the ascending-order/last-at-1
invariant holds exactly when no extra stops are supplied. -/
theorem gradient_stops_spec (c1 c2 : String) (extra : List ExtraStop) :
    (_apply_gradient_fill c1 c2 extra).map GradientStop.pos
      = [0, 1] ++ extra.map (fun es => (pyInt (es.pos * 1000) : ℚ) / 100000)
  ∧ (extra = [] →
      _apply_gradient_fill c1 c2 extra = [⟨0, hexCode c1⟩, ⟨1, hexCode c2⟩]
      ∧ List.Sorted (· < ·) ((_apply_gradient_fill c1 c2 extra).map GradientStop.pos)) := by
  constructor
  · simp [_apply_gradient_fill]
  · rintro rfl
    refine ⟨by simp [_apply_gradient_fill], ?_⟩
    simp only [_apply_gradient_fill, List.map_nil, List.append_nil, List.map_cons,
      List.Sorted, List.pairwise_cons]
    norm_num

/-- C4 counterexample: one extra stop at 50 percent yields the stop
positions `[0, 1, 1/2]` — appended after the base stops, not inserted
between them — which are not sorted ascending and whose last entry is
not 1. -/
theorem gradient_extra_stop_counterexample :
    ((_apply_gradient_fill "#111111" "#222222" [⟨50, "#333333"⟩]).map GradientStop.pos
        = [0, 1, 1/2])
  ∧ ¬ List.Sorted (· < ·)
      ((_apply_gradient_fill "#111111" "#222222" [⟨50, "#333333"⟩]).map GradientStop.pos)
  ∧ ((_apply_gradient_fill "#111111" "#222222" [⟨50, "#333333"⟩]).map
        GradientStop.pos).getLast? ≠ some 1 := by
  refine ⟨?_, ?_, ?_⟩ <;> with_unfolding_all decide

/-- Witness for C4: with no extra stops the gradient is exactly the two
base stops at 0 and 1. -/
theorem gradient_stops_spec_witness :
    _apply_gradient_fill "#AAAAAA" "#BBBBBB" [] = [⟨0, "AAAAAA"⟩, ⟨1, "BBBBBB"⟩] := by
  have h := (gradient_stops_spec "#AAAAAA" "#BBBBBB" []).2 rfl
  rw [h.1]
  with_unfolding_all decide

/-- C5 (amended): the word and spreadsheet entry points always return
one of the two record shapes — on any rendering/save exception they
return the structured error string — but the presentation entry point
catches nothing: it returns the success record only when saving
succeeds, and a save failure propagates as an exception. -/
theorem generation_error_contract (ws e fp : String) (fsE : String → Bool)
    (sc : List SlideData) (pset : Option PresentationSettings) :
    generate_word_document (some ws) (some e) fp
      = .returns (.err ("Word generation error: " ++ e))
  ∧ generate_excel_document (some ws) (some e) fp
      = .returns (.err ("Excel generation error: " ++ e))
  ∧ (∀ wsp err, (generate_word_document wsp err fp).isRaises = false)
  ∧ (∀ wsp err, (generate_excel_document wsp err fp).isRaises = false)
  ∧ generate_pptx_presentation (some ws) fsE (some e) fp sc pset
      = PyOutcome.raises e
  ∧ (generate_pptx_presentation (some ws) fsE none fp sc pset).isRaises = false := by
  refine ⟨rfl, rfl, ?_, ?_, rfl, rfl⟩
  · rintro (_ | wsp) (_ | err) <;> rfl
  · rintro (_ | wsp) (_ | err) <;> rfl

/-- C5 counterexample: an I/O error during the presentation save is not
caught and returned as a structured error record — the exception
escapes `generate_pptx_presentation`, contradicting the claim that all
three document generators catch I/O errors at the outermost call. -/
theorem pptx_save_error_escapes :
    generate_pptx_presentation (some "/ws") noFiles (some "disk full")
        "report.pptx" [] none
      = PyOutcome.raises "disk full" := rfl

/-- C6: dispatching a slide whose `slide_type` does not normalize to a
registry key produces exactly the same presentation state as
dispatching the same slide data with `slide_type` set to `"content"`. -/
theorem unknown_tag_dispatch (prs : List Slide) (sd : SlideData)
    (th : Theme) (font ws : String) (fsE : String → Bool) (st : String)
    (h : SLIDE_BUILDERS.lookup (st.toLower.trim) = none) :
    dispatchSlide th font ws fsE prs {sd with slide_type := some st}
      = dispatchSlide th font ws fsE prs {sd with slide_type := some "content"} := by
  unfold dispatchSlide dispatchNewSlide builderFor dispatchSlideType
  simp only [Option.getD_some]
  rw [h]
  rw [show SLIDE_BUILDERS.lookup ("content".toLower.trim) = some BuilderTag.contentB
    by with_unfolding_all decide]
  simp only [Option.getD_none, Option.getD_some]
  show prs ++ [buildSlideOf .contentB _ _ th font ws fsE]
      = prs ++ [buildSlideOf .contentB _ _ th font ws fsE]
  cases sd
  rfl

/-- Witness for C6 at the unregistered tag `"hero_banner"`. -/
theorem unknown_tag_dispatch_witness :
    dispatchSlide midnightTheme "Calibri" "ws" noFiles []
        {slide_type := some "hero_banner", title := some "T"}
      = dispatchSlide midnightTheme "Calibri" "ws" noFiles []
        {slide_type := some "content", title := some "T"} := by
  exact unknown_tag_dispatch [] {title := some "T"} midnightTheme "Calibri" "ws"
    noFiles "hero_banner" (by with_unfolding_all decide)

/-- C7: in the stacked-bar branch the baseline at which series `i` is
drawn at category `j` is the sum of the effective values of series
`0 … i-1` at `j`, starting from zero, and the final running baseline
(the stacked total) at `j` is the sum over all series. -/
theorem stacked_bar_baseline (cfg : ChartCfg)
    (hs : ∀ s ∈ cfg.series,
      cfg.categories.length ≤
        (s.values.getD (List.replicate cfg.categories.length 0)).length)
    (i j : Nat) (hi : i < cfg.series.length) (hj : j < cfg.categories.length) :
    ((stackedBarPlot cfg).getD i ⟨[], []⟩).bottom.getD j 0
      = ∑ k in Finset.range i, (stackedValsOf cfg k).getD j 0
  ∧ (stackedFinal cfg.categories.length
        (List.replicate cfg.categories.length 0) cfg.series).getD j 0
      = ∑ k in Finset.range cfg.series.length, (stackedValsOf cfg k).getD j 0 := by
  constructor
  · unfold stackedBarPlot stackedValsOf
    rw [stackedBars_getD_bottom _ _ _ i hi]
    rw [stackedFinal_getD _ _ _ j (by simp) hj
      (fun s' hs' => hs s' (List.mem_of_mem_take hs'))]
    rw [getD_replicate_zero]
    rw [List.length_take, min_eq_left (le_of_lt hi)]
    rw [zero_add]
    refine Finset.sum_congr rfl fun k hk => ?_
    have hk' : k < i := Finset.mem_range.mp hk
    congr 2
    rw [List.getD_eq_getElem?_getD, List.getD_eq_getElem?_getD,
      List.getElem?_take_of_lt hk']
  · unfold stackedValsOf
    rw [stackedFinal_getD _ _ _ j (by simp) hj hs, getD_replicate_zero, zero_add]

/-- The running example of the stacked-bar accumulation: two series
`[1, 2]` and `[3, 4]` over two categories. -/
def stackedExampleCfg : ChartCfg :=
  {chart_type := some "stacked_bar", categories := ["c0", "c1"],
   series := [{name := some "A", values := some [1, 2]},
              {name := some "B", values := some [3, 4]}]}

/-- Witness for C7: with series `[[1, 2], [3, 4]]` over 2 categories,
series 1 is drawn on baseline `1` at category 0 and the stacked total at
category 0 is `1 + 3 = 4`. -/
theorem stacked_bar_baseline_witness :
    ((stackedBarPlot stackedExampleCfg).getD 1 ⟨[], []⟩).bottom.getD 0 0
        = ∑ k in Finset.range 1, (stackedValsOf stackedExampleCfg k).getD 0 0
  ∧ (stackedFinal 2 (List.replicate 2 0) stackedExampleCfg.series).getD 0 0
        = ∑ k in Finset.range 2, (stackedValsOf stackedExampleCfg k).getD 0 0
  ∧ (stackedFinal 2 (List.replicate 2 0) stackedExampleCfg.series).getD 0 0 = 4 := by
  have h := stacked_bar_baseline stackedExampleCfg
    (by intro s hs; fin_cases hs <;> with_unfolding_all decide) 1 0
    (by decide) (by decide)
  refine ⟨h.1, h.2, ?_⟩
  with_unfolding_all decide

/-- C8: for `n ≥ 1` timeline steps, the node circle of step `i < n` is
centered at `x = 0.8 + i * stepWidth + stepWidth / 2` where `stepWidth`
is the axis bar's length divided by `n`; the step's content boxes (as
emitted by the builder) sit entirely above the axis line for even `i`
and start below it for odd `i`. -/
theorem timeline_step_layout (n i : Nat) (step : TimelineStep) (th : Theme)
    (hn : 1 ≤ n) (hi : i < n) :
    timelineMarkerLeft n i + 0.4 / 2
      = 0.8 + (i : ℚ) * (timelineAxisBar.w / (n : ℚ)) + (timelineAxisBar.w / (n : ℚ)) / 2
  ∧ timelineStepWidth n = timelineAxisBar.w / (n : ℚ)
  ∧ ((timelineStepElems n i step th).drop 2).filterMap textBoxRegion
      = timelineContentBoxes n i step
  ∧ (∀ r ∈ timelineContentBoxes n i step,
       if i % 2 = 0 then r.y + r.h ≤ timelineLineY else timelineLineY ≤ r.y) := by
  refine ⟨?_, rfl, ?_, ?_⟩
  · unfold timelineMarkerLeft timelineCenterX timelineStepWidth timelineAxisBar
    ring
  · unfold timelineStepElems timelineContentElems timelineContentBoxes
    dsimp only
    split_ifs <;> simp [textBoxRegion]
  · intro r hr
    unfold timelineContentBoxes at hr
    dsimp only at hr
    split_ifs at hr ⊢ with h2 <;>
      simp only [List.mem_append, List.mem_cons, List.not_mem_nil, or_false,
        false_or, List.mem_singleton] at hr <;>
      (try casesm* _ ∨ _) <;>
      subst_vars <;>
      norm_num [timelineLineY]

/-- Witness for C8 at `n = 2`, `i = 1` (content below the axis). -/
theorem timeline_step_layout_witness :
    timelineMarkerLeft 2 1 + 0.4 / 2
      = 0.8 + (1 : ℚ) * (timelineAxisBar.w / (2 : ℚ)) + (timelineAxisBar.w / (2 : ℚ)) / 2
  ∧ (∀ r ∈ timelineContentBoxes 2 1 {title := "Step 2"},
      if 1 % 2 = 0 then r.y + r.h ≤ timelineLineY else timelineLineY ≤ r.y) := by
  have h := timeline_step_layout 2 1 {title := "Step 2"} midnightTheme
    (by decide) (by decide)
  exact ⟨h.1, h.2.2.2⟩

/-- C9: grid-style builders given zero items return the empty layout
instead of failing: a cards or stats slide with an empty item list is
just the title-bar furniture plus the footer, a table with empty data
produces no table shape, and the card grid of zero cards is empty. -/
theorem empty_grid_layouts (k : Nat) (sd : SlideData) (th : Theme) (tc : TableCfg) :
    (sd.cards = [] → _build_cards_slide k sd th
        = titleBarFurniture (sd.title.getD "") th ++ _add_slide_footer k th)
  ∧ (sd.stats = [] → _build_stats_slide k sd th
        = titleBarFurniture (sd.title.getD "") th ++ _add_slide_footer k th)
  ∧ (tc.data = [] → _add_styled_table tc = none)
  ∧ cardRegions 0 = [] := by
  refine ⟨fun h => ?_, fun h => ?_, fun h => ?_, rfl⟩
  · simp [_build_cards_slide, h]
  · simp [_build_stats_slide, h]
  · simp [_add_styled_table, h]

/-- Witness for C9 on the all-defaults slide data and table config. -/
theorem empty_grid_layouts_witness :
    _build_cards_slide 1 {} midnightTheme
        = titleBarFurniture "" midnightTheme ++ _add_slide_footer 1 midnightTheme
  ∧ _add_styled_table {} = none := by
  refine ⟨?_, (empty_grid_layouts 1 {} midnightTheme {}).2.2.1 rfl⟩
  simpa using (empty_grid_layouts 1 {} midnightTheme {}).1 rfl

/-- C10: the dispatch loop appends exactly one slide per
`slides_content` entry in list order, the `slides_count` of the success
record equals `slides_content.length`, and the footer page number of the
slide at 0-based index `i` (for builders that add a footer) is `i + 1`,
its 1-based position in the deck. -/
theorem one_slide_per_entry (th : Theme) (font ws fp : String)
    (fsE : String → Bool) (contents : List SlideData)
    (pset : Option PresentationSettings) :
    (pptxSlides th font ws fsE contents).length = contents.length
  ∧ (generate_pptx_presentation (some ws) fsE none fp contents pset).pptxCount
      = some contents.length
  ∧ (∀ i, i < contents.length →
      (pptxSlides th font ws fsE contents).getD i []
        = dispatchNewSlide th font ws fsE (i + 1) (contents.getD i {}))
  ∧ (∀ i, i < contents.length →
      builderAddsFooter (builderFor (contents.getD i {})) = true →
      _add_slide_footer (i + 1) th <:+ (pptxSlides th font ws fsE contents).getD i []) := by
  have hfold : ∀ (th' : Theme) (font' : String),
      pptxSlides th' font' ws fsE contents
        = slidesFrom th' font' ws fsE 0 contents := by
    intro th' font'
    unfold pptxSlides
    rw [foldl_dispatchSlide]
    rfl
  refine ⟨?_, ?_, ?_, ?_⟩
  · rw [hfold, slidesFrom_length]
  · unfold generate_pptx_presentation PyOutcome.pptxCount
    dsimp only
    rw [hfold, slidesFrom_length]
  · intro i hi
    rw [hfold, slidesFrom_getD _ _ _ _ _ i contents hi]
    congr 1
    omega
  · intro i hi hfootr
    rw [hfold, slidesFrom_getD _ _ _ _ _ i contents hi]
    rw [show (0 + i + 1) = i + 1 by omega]
    exact footer_suffix_of_addsFooter _ _ _ _ _ _ _ hfootr

/-- Witness for C10: a two-slide deck gets slide count 2 and the second
slide's footer carries page number 2. -/
theorem one_slide_per_entry_witness :
    (pptxSlides midnightTheme "Calibri" "ws" noFiles
        [{slide_type := some "cards"}, {}]).length = 2
  ∧ (generate_pptx_presentation (some "ws") noFiles none "deck.pptx"
        [{slide_type := some "cards"}, {}] none).pptxCount = some 2
  ∧ _add_slide_footer 2 midnightTheme <:+
      (pptxSlides midnightTheme "Calibri" "ws" noFiles
        [{slide_type := some "cards"}, {}]).getD 1 [] := by
  have h := one_slide_per_entry midnightTheme "Calibri" "ws" "deck.pptx" noFiles
    [{slide_type := some "cards"}, {}] none
  exact ⟨h.1, h.2.1, h.2.2.2 1 (by decide) (by with_unfolding_all decide)⟩
